import Mathlib

/-!
# Verification of the xml-xsd-validator error-normalization core

Shallow embedding of `src/XMLValidator.ts`: the diagnostic parser
(`parseValidationErrors`), the text-source selection it performs, the
subprocess command construction, the temp-file materialization and cleanup,
and the two execution modes (`validate` / `validateSync`).

Text is modelled as `String` / `List Char`.  The JavaScript regex
`/(.*):(\d+): (.*)/` applied via `line.match` is embedded by an explicit
leftmost-start, greedy-group backtracking matcher (`matchJS`), where `.`
matches any character except the JavaScript line terminators.
-/

namespace XMLValidator

/-- One structured diagnostic record `{file, line, message}`. -/
structure ValidationError where
  file : String
  line : Nat
  message : String
deriving DecidableEq

/-- Result of a validation call: the literal success marker `true`, or an
ordered list of diagnostic records. -/
inductive ValidationResult where
  | success : ValidationResult
  | errors : List ValidationError → ValidationResult
deriving DecidableEq

/-- The error object an invocation failure carries (`error.stderr`,
`error.message`); the empty string models an absent / falsy field. -/
structure ErrObj where
  stderr : String
  message : String
deriving DecidableEq

/-- Characters removed by JavaScript `String.prototype.trim` (the common
whitespace set: space, tab, LF, CR, VT, FF, NBSP, BOM). -/
def isJsSpace (c : Char) : Bool :=
  c = ' ' || c = '\t' || c = '\n' || c = '\r' ||
  c = Char.ofNat 11 || c = Char.ofNat 12 || c = Char.ofNat 160 || c = Char.ofNat 0xFEFF

/-- JavaScript `trim` on a character list: drop whitespace at both ends. -/
def jsTrimList (l : List Char) : List Char :=
  ((l.dropWhile isJsSpace).reverse.dropWhile isJsSpace).reverse

/-- `String.prototype.split(sep)` for a single-character separator. -/
def splitChar (sep : Char) : List Char → List (List Char)
  | [] => [[]]
  | c :: cs =>
    if c = sep then [] :: splitChar sep cs
    else
      match splitChar sep cs with
      | [] => [[c]]
      | w :: ws => (c :: w) :: ws

/-- What the regex `.` matches: any character except a JavaScript line
terminator (LF, CR, LS, PS). -/
def isDotChar (c : Char) : Bool :=
  c ≠ '\n' && c ≠ '\r' && c ≠ Char.ofNat 0x2028 && c ≠ Char.ofNat 0x2029

/-- What the regex `\d` matches: an ASCII decimal digit. -/
def isDigitChar (c : Char) : Bool :=
  '0' ≤ c && c ≤ '9'

/-- Split off the maximal leading digit run (greedy `\d+` behaviour). -/
def takeDigits : List Char → List Char × List Char
  | [] => ([], [])
  | c :: cs =>
    if isDigitChar c then
      let (d, r) := takeDigits cs
      (c :: d, r)
    else ([], c :: cs)

/-- Match `:(\d+): ` at the head of the list: a colon, a nonempty maximal
digit run, a colon, a space; returns the digits and the remaining tail.
Backtracking inside `\d+` can never succeed when the maximal run fails
(the char given back is a digit, not `:`), so the maximal run is exact. -/
def markerSplit : List Char → Option (List Char × List Char)
  | [] => none
  | c :: rest =>
    if c = ':' then
      match takeDigits rest with
      | (ds, r) =>
        if ds = [] then none
        else
          match r with
          | r1 :: r2 :: tail => if r1 = ':' ∧ r2 = ' ' then some (ds, tail) else none
          | _ => none
    else none

/-- Whether `:(\d+): ` matches anywhere in the list (at any start). -/
def hasMarker : List Char → Bool
  | [] => false
  | c :: cs => (markerSplit (c :: cs)).isSome || hasMarker cs

/-- Greedy match of `(.*):(\d+): ` anchored at the head: the first group
takes the LONGEST dot-character prefix that is followed by a `:(\d+): `
marker.  Returns (group-1 chars, digit chars, tail after the marker). -/
def greedySplit : List Char → Option (List Char × List Char × List Char)
  | [] => none
  | c :: cs =>
    match (if isDotChar c then greedySplit cs else none) with
    | some (p, d, m) => some (c :: p, d, m)
    | none =>
      match markerSplit (c :: cs) with
      | some (d, tail) => some ([], d, tail)
      | none => none

/-- Full JavaScript `line.match(/(.*):(\d+): (.*)/)` semantics: try each
start position left to right, greedy groups at the first position that
matches. -/
def matchJS : List Char → Option (List Char × List Char × List Char)
  | [] => none
  | c :: cs =>
    match greedySplit (c :: cs) with
    | some r => some r
    | none => matchJS cs

/-- `parseInt(ds, 10)` on a digit run. -/
def digitsToNat (ds : List Char) : Nat :=
  ds.foldl (fun n c => n * 10 + (c.toNat - 48)) 0

/-- One line of the `.map` in `parseValidationErrors`: match the regex and
build `{file: m[1], line: parseInt(m[2]), message: m[3]}`, or the default
record `{file: '', line: 0, message: ''}` when the line does not match.
The third group `(.*)` greedily takes the dot-character run after the
marker. -/
def parseLine (l : List Char) : ValidationError :=
  match matchJS l with
  | some (file, digits, rest) =>
    { file := String.mk file
      line := digitsToNat digits
      message := String.mk (rest.takeWhile isDotChar) }
  | none => { file := "", line := 0, message := "" }

/-- The text-source selection at the top of `parseValidationErrors`:
`let v = stderr || ''` then `if (error && error.stderr) v = error.stderr`
then `if (error && error.message) v = error.message`. -/
def selectText (error : Option ErrObj) (stderr : Option String) : String :=
  let v0 := stderr.getD ""
  let v1 :=
    match error with
    | some e => if e.stderr ≠ "" then e.stderr else v0
    | none => v0
  match error with
  | some e => if e.message ≠ "" then e.message else v1
  | none => v1

/-- `parseValidationErrors(error, stderr?)` from `src/XMLValidator.ts`:
select the text, and if its trim is non-empty, split into lines, parse each
line, and keep only records with truthy (non-empty) `file` AND `message`;
otherwise return the success marker `true`. -/
def parseValidationErrors (error : Option ErrObj) (stderr : Option String) :
    ValidationResult :=
  let validationErrors := selectText error stderr
  let t := jsTrimList validationErrors.data
  if t ≠ [] then
    ValidationResult.errors
      (((splitChar '\n' t).map parseLine).filter
        (fun e => e.file != "" && e.message != ""))
  else ValidationResult.success

/-- Outcome of one subprocess invocation: the process ran and exited
(zero or non-zero, writing `stderrText` to its error stream, with `errObj`
the error object produced on non-zero exit), or the process could not be
spawned at all (only an error object). -/
inductive InvokeOutcome where
  | exited : Bool → String → ErrObj → InvokeOutcome
  | spawnFailure : ErrObj → InvokeOutcome
deriving DecidableEq

/-- The `error` argument `exec`'s callback receives: `null` on exit 0,
otherwise the error object (also for spawn failures). -/
def execOutcomeError : InvokeOutcome → Option ErrObj
  | .exited true _ _ => none
  | .exited false _ e => some e
  | .spawnFailure e => some e

/-- The `stderr` string `exec`'s callback receives (empty for a spawn
failure). -/
def execOutcomeStderr : InvokeOutcome → String
  | .exited _ s _ => s
  | .spawnFailure _ => ""

/-- `validate()` after materialization: the `exec` callback always runs and
the promise resolves with `parseValidationErrors(error, stderr)`. -/
def validateRun (out : InvokeOutcome) : ValidationResult :=
  parseValidationErrors (execOutcomeError out) (some (execOutcomeStderr out))

/-- `validateSync()` after materialization: on exit 0 `execSync` returns and
the method returns `true` (the captured stderr text is discarded); on a
non-zero exit or spawn failure `execSync` throws and the catch block returns
`parseValidationErrors(error)` with no `stderr` argument. -/
def validateSyncRun : InvokeOutcome → ValidationResult
  | .exited true _ _ => ValidationResult.success
  | .exited false _ e => parseValidationErrors (some e) none
  | .spawnFailure e => parseValidationErrors (some e) none

/-- `validate()` including the temp-file write: `getTempPaths` runs inside
the promise executor, so a filesystem-write throw rejects the promise;
every invocation outcome (spawn failure included) reaches the callback and
resolves with the parse result. -/
def validateFullAsync (write : Except String Unit) (out : InvokeOutcome) :
    Except String ValidationResult :=
  match write with
  | .error msg => .error msg
  | .ok _ => .ok (validateRun out)

/-- `validateSync()` including the temp-file write: `getTempPaths` runs
before the `try`, so a filesystem-write throw propagates to the caller;
any invocation outcome yields an ordinary `ValidationResult`. -/
def validateFullSync (write : Except String Unit) (out : InvokeOutcome) :
    Except String ValidationResult :=
  match write with
  | .error msg => .error msg
  | .ok _ => .ok (validateSyncRun out)

/-- The command string both modes build:
`` `xmllint --noout --schema ${tempXsdPath} ${tempXmlPath}` ``. -/
def buildCommand (tempXsdPath tempXmlPath : String) : String :=
  "xmllint --noout --schema " ++ tempXsdPath ++ " " ++ tempXmlPath

/-- Shell word-splitting on spaces (empty words dropped): formalizes how a
space-containing unquoted path fragments the command line. -/
def shellWords (s : String) : List String :=
  ((splitChar ' ' s.data).filter (fun w => w ≠ [])).map String.mk

/-- A constructor input: a filesystem path, or a Buffer with raw content. -/
inductive Input where
  | path : String → Input
  | buffer : String → Input
deriving DecidableEq

/-- `instanceof Buffer` test used by `getTempPaths`/`cleanupTempFiles`. -/
def Input.isBuf : Input → Bool
  | .path _ => false
  | .buffer _ => true

/-- Temp-file state of one call: the temp files currently on disk and the
distinct temp files the call has brought into existence. -/
structure TempModel where
  fs : List String
  created : List String
deriving DecidableEq

/-- `writeTempFile(buffer)`: path is `` `${tmpdir}/${Date.now()}` `` where
`now` is the clock value at this call; on success the file is written
(overwriting silently if the path already exists), on failure
(`writeFileSync` throw) nothing is created.  State survives the throw. -/
def writeTempFileM (tmpDir : String) (now : Nat) (ok : Bool) (m : TempModel) :
    Except String String × TempModel :=
  let filePath := tmpDir ++ "/" ++ Nat.repr now
  if ok then
    (.ok filePath,
      { fs := if filePath ∈ m.fs then m.fs else m.fs ++ [filePath]
        created := if filePath ∈ m.fs then m.created else m.created ++ [filePath] })
  else (.error "EWRITE", m)

/-- `getTempPaths()`: materialize the XSD input then the XML input; a Buffer
input triggers a `writeTempFile` call (indexed in call order, `clock k` is
`Date.now()` at the k-th write and `writeOk k` whether it succeeds); a path
input is passed through.  A throw propagates, keeping the state reached. -/
def getTempPathsM (xsd xml : Input) (tmpDir : String) (clock : Nat → Nat)
    (writeOk : Nat → Bool) (m : TempModel) :
    Except String (String × String) × TempModel :=
  match xsd with
  | .path p =>
    match xml with
    | .path q => (.ok (p, q), m)
    | .buffer _ =>
      match writeTempFileM tmpDir (clock 0) (writeOk 0) m with
      | (.ok q, m1) => (.ok (p, q), m1)
      | (.error e, m1) => (.error e, m1)
  | .buffer _ =>
    match writeTempFileM tmpDir (clock 0) (writeOk 0) m with
    | (.error e, m1) => (.error e, m1)
    | (.ok p, m1) =>
      match xml with
      | .path q => (.ok (p, q), m1)
      | .buffer _ =>
        match writeTempFileM tmpDir (clock 1) (writeOk 1) m1 with
        | (.ok q, m2) => (.ok (p, q), m2)
        | (.error e, m2) => (.error e, m2)

/-- `unlinkSync(p)`: removes the file, or throws `ENOENT` if absent. -/
def unlinkSyncM (p : String) (m : TempModel) : Except String Unit × TempModel :=
  if p ∈ m.fs then (.ok (), { m with fs := m.fs.erase p })
  else (.error "ENOENT", m)

/-- `cleanupTempFiles(tempXsdPath, tempXmlPath)`: unlink each path whose
corresponding input is a Buffer, XSD first; a throw from the first unlink
skips the second. -/
def cleanupTempFilesM (xsdBuf xmlBuf : Bool) (pXsd pXml : String)
    (m : TempModel) : Except String Unit × TempModel :=
  match (if xsdBuf then unlinkSyncM pXsd m else (.ok (), m)) with
  | (.error e, m1) => (.error e, m1)
  | (.ok _, m1) => if xmlBuf then unlinkSyncM pXml m1 else (.ok (), m1)

/-- `validateSync()` as a temp-file state machine.  `invokeOk` says whether
`execSync` returned (exit 0) or threw.  Control flow from the source: a
`getTempPaths` throw propagates (it runs before the `try`); on exit 0 the
cleanup runs inside the `try` and a cleanup throw falls into the `catch`,
which cleans up again and returns the parse result; on an `execSync` throw
the `catch` cleans up and returns the parse result; a throw from the
`catch`'s cleanup propagates.  The `Bool` result is `true` when the method
returned the success marker, `false` when it returned a parsed list. -/
def validateSyncM (xsd xml : Input) (tmpDir : String) (clock : Nat → Nat)
    (writeOk : Nat → Bool) (invokeOk : Bool) (m0 : TempModel) :
    Except String Bool × TempModel :=
  match getTempPathsM xsd xml tmpDir clock writeOk m0 with
  | (.error e, m) => (.error e, m)
  | (.ok (pXsd, pXml), m) =>
    if invokeOk then
      match cleanupTempFilesM xsd.isBuf xml.isBuf pXsd pXml m with
      | (.ok _, m1) => (.ok true, m1)
      | (.error _, m1) =>
        match cleanupTempFilesM xsd.isBuf xml.isBuf pXsd pXml m1 with
        | (.ok _, m2) => (.ok false, m2)
        | (.error e2, m2) => (.error e2, m2)
    else
      match cleanupTempFilesM xsd.isBuf xml.isBuf pXsd pXml m with
      | (.ok _, m1) => (.ok false, m1)
      | (.error e2, m1) => (.error e2, m1)

/-- How the promise of `validate()` settles: resolved with a parse result,
rejected (the executor threw, i.e. a temp write failed), or never settled
because the `exec` callback itself threw (a cleanup failure escapes as an
uncaught exception). -/
inductive AsyncResult where
  | resolved : AsyncResult
  | rejected : String → AsyncResult
  | crashed : String → AsyncResult
deriving DecidableEq

/-- `validate()` as a temp-file state machine: `getTempPaths` throw rejects;
otherwise the callback runs after every invocation outcome (spawn failure
included), cleaning up and then resolving. -/
def validateM (xsd xml : Input) (tmpDir : String) (clock : Nat → Nat)
    (writeOk : Nat → Bool) (m0 : TempModel) : AsyncResult × TempModel :=
  match getTempPathsM xsd xml tmpDir clock writeOk m0 with
  | (.error e, m) => (.rejected e, m)
  | (.ok (pXsd, pXml), m) =>
    match cleanupTempFilesM xsd.isBuf xml.isBuf pXsd pXml m with
    | (.ok _, m1) => (.resolved, m1)
    | (.error e, m1) => (.crashed e, m1)

/-- Number of Buffer inputs supplied (0, 1, or 2). -/
def bufCount (xsd xml : Input) : Nat :=
  (if xsd.isBuf then 1 else 0) + (if xml.isBuf then 1 else 0)

example : parseLine "a:1: b".data = ⟨"a", 1, "b"⟩ := by decide
example : parseLine "a:1: b:2: c".data = ⟨"a:1: b", 2, "c"⟩ := by decide
example : parseLine "WARNING: something unrelated".data = ⟨"", 0, ""⟩ := by decide
example : parseValidationErrors none (some "x.xml:4: bad\nnoise") =
    ValidationResult.errors [⟨"x.xml", 4, "bad"⟩] := by decide

/-! ## Helper lemmas about the matcher -/

theorem markerSplit_not_colon (c : Char) (cs : List Char) (h : c ≠ ':') :
    markerSplit (c :: cs) = none := by
  unfold markerSplit
  simp [h]

theorem isDigitChar_ne_colon (c : Char) (h : isDigitChar c = true) : c ≠ ':' := by
  intro e
  subst e
  exact absurd h (by decide)

theorem takeDigits_digits_colon (d rest : List Char) (hd : d.all isDigitChar = true) :
    takeDigits (d ++ ':' :: rest) = (d, ':' :: rest) := by
  induction d with
  | nil => simp [takeDigits, show isDigitChar ':' = false from by decide]
  | cons c ds ih =>
    simp only [List.all_cons, Bool.and_eq_true] at hd
    simp [takeDigits, hd.1, ih hd.2]

theorem markerSplit_marker (d b : List Char) (hd1 : d ≠ [])
    (hd2 : d.all isDigitChar = true) :
    markerSplit (':' :: (d ++ ':' :: ' ' :: b)) = some (d, b) := by
  simp only [markerSplit, takeDigits_digits_colon d (' ' :: b) hd2]
  simp [hd1]

theorem hasMarker_digits_colon_space (d b : List Char) (hd : d.all isDigitChar = true)
    (hb : hasMarker b = false) :
    hasMarker (d ++ ':' :: ' ' :: b) = false := by
  induction d with
  | nil =>
    have h1 : markerSplit (':' :: ' ' :: b) = none := by
      unfold markerSplit
      simp [takeDigits, show isDigitChar ' ' = false from by decide]
    have h2 : markerSplit (' ' :: b) = none :=
      markerSplit_not_colon ' ' b (by decide)
    simp [hasMarker, h1, h2, hb]
  | cons c ds ih =>
    simp only [List.all_cons, Bool.and_eq_true] at hd
    have h1 : markerSplit (c :: (ds ++ ':' :: ' ' :: b)) = none :=
      markerSplit_not_colon _ _ (isDigitChar_ne_colon c hd.1)
    simp [hasMarker, h1, ih hd.2]

theorem greedySplit_none_of_no_marker (l : List Char) (h : hasMarker l = false) :
    greedySplit l = none := by
  induction l with
  | nil => rfl
  | cons c cs ih =>
    simp only [hasMarker, Bool.or_eq_false_iff] at h
    cases hmk : markerSplit (c :: cs) with
    | some v => rw [hmk] at h; simp at h
    | none =>
      unfold greedySplit
      rw [ih h.2]
      simp [hmk]

theorem greedySplit_marker (d b : List Char) (hd1 : d ≠ [])
    (hd2 : d.all isDigitChar = true) (hb : hasMarker b = false) :
    greedySplit (':' :: (d ++ ':' :: ' ' :: b)) = some ([], d, b) := by
  unfold greedySplit
  rw [greedySplit_none_of_no_marker _ (hasMarker_digits_colon_space d b hd2 hb)]
  simp [markerSplit_marker d b hd1 hd2]

theorem greedySplit_prepend (a l p d m : List Char)
    (ha : a.all isDotChar = true) (h : greedySplit l = some (p, d, m)) :
    greedySplit (a ++ l) = some (a ++ p, d, m) := by
  induction a with
  | nil => simpa using h
  | cons c as ih =>
    simp only [List.all_cons, Bool.and_eq_true] at ha
    simp only [List.cons_append]
    unfold greedySplit
    simp [ha.1, ih ha.2]

theorem matchJS_of_greedySplit (l : List Char) (r : List Char × List Char × List Char)
    (h : greedySplit l = some r) : matchJS l = some r := by
  cases l with
  | nil => simp [greedySplit] at h
  | cons c cs =>
    unfold matchJS
    rw [h]

theorem takeWhile_all {α : Type} (p : α → Bool) (l : List α) (h : l.all p = true) :
    l.takeWhile p = l := by
  induction l with
  | nil => rfl
  | cons c cs ih =>
    simp only [List.all_cons, Bool.and_eq_true] at h
    simp [List.takeWhile_cons, h.1, ih h.2]

theorem string_data_append (s t : String) : (s ++ t).data = s.data ++ t.data := by
  cases s
  cases t
  rfl

theorem string_mk_data (s : String) : String.mk s.data = s := by
  cases s
  rfl

theorem splitChar_ne_nil (sep : Char) (l : List Char) : splitChar sep l ≠ [] := by
  cases l with
  | nil => simp [splitChar]
  | cons c cs =>
    unfold splitChar
    by_cases h : c = sep
    · simp [h]
    · simp only [h, if_false]
      cases splitChar sep cs <;> simp

theorem splitChar_sepfree (sep : Char) (xs : List Char) (h : ∀ c ∈ xs, c ≠ sep) :
    splitChar sep xs = [xs] := by
  induction xs with
  | nil => rfl
  | cons c cs ih =>
    have hc : c ≠ sep := h c (by simp)
    have ih' := ih (fun a ha => h a (by simp [ha]))
    simp [splitChar, hc, ih']

theorem splitChar_append_sep (sep : Char) (xs ys : List Char) (h : ∀ c ∈ xs, c ≠ sep) :
    splitChar sep (xs ++ sep :: ys) = xs :: splitChar sep ys := by
  induction xs with
  | nil => simp [splitChar]
  | cons c cs ih =>
    have hc : c ≠ sep := h c (by simp)
    have ih' := ih (fun a ha => h a (by simp [ha]))
    simp only [List.cons_append, splitChar, List.append_eq]
    rw [ih']
    simp [hc]

/-! ## Claim theorems -/

/-- C2 (counterexample): when the error object carries BOTH a non-empty
captured stderr text and a non-empty message, the parser's selected text is
the MESSAGE, not the stderr text — the claimed precedence (stderr over
message) is the reverse of what the code does. -/
theorem C2_counterexample :
    selectText (some ⟨"from-stderr", "from-message"⟩) (some "raw") = "from-message" ∧
    "from-message" ≠ "from-stderr" := by
  decide

/-- C2 (amended): the error object's message takes precedence over its
captured stderr text; the stderr text is used only when the message is
empty; the raw captured stderr of the invocation is used when no error
object is present, or when both of its fields are empty. -/
theorem C2_message_over_stderr (e : ErrObj) (stderr : Option String) :
    (e.message ≠ "" → selectText (some e) stderr = e.message) ∧
    (e.message = "" → e.stderr ≠ "" → selectText (some e) stderr = e.stderr) ∧
    (e.message = "" → e.stderr = "" → selectText (some e) stderr = stderr.getD "") ∧
    selectText none stderr = stderr.getD "" := by
  refine ⟨fun h => ?_, fun h1 h2 => ?_, fun h1 h2 => ?_, rfl⟩
  · simp [selectText, h]
  · simp [selectText, h1, h2]
  · simp [selectText, h1, h2]

theorem C2_message_over_stderr_witness :
    ((("m" : String) ≠ "") ∧ selectText (some ⟨"s", "m"⟩) (some "raw") = "m") ∧
    ((("" : String) = "") ∧ (("s" : String) ≠ "") ∧
      selectText (some ⟨"s", ""⟩) (some "raw") = "s") :=
  ⟨⟨by decide, (C2_message_over_stderr ⟨"s", "m"⟩ (some "raw")).1 (by decide)⟩,
   ⟨by decide, by decide,
    (C2_message_over_stderr ⟨"s", ""⟩ (some "raw")).2.1 (by decide) (by decide)⟩⟩

/-- C8 (confirmed): whenever the selected diagnostic text trims to nothing,
the parser returns the success marker; in particular a non-zero exit whose
error object yields only whitespace text makes `validateSync` return the
success marker. -/
theorem C8_blank_text_is_success (error : Option ErrObj) (stderr : Option String)
    (s : String) (e : ErrObj)
    (h : jsTrimList (selectText error stderr).data = [])
    (h2 : jsTrimList (selectText (some e) none).data = []) :
    parseValidationErrors error stderr = ValidationResult.success ∧
    validateSyncRun (InvokeOutcome.exited false s e) = ValidationResult.success := by
  constructor
  · simp [parseValidationErrors, h]
  · simp [validateSyncRun, parseValidationErrors, h2]

theorem C8_blank_text_is_success_witness :
    (jsTrimList (selectText (some ⟨" ", ""⟩) none).data = []) ∧
    (parseValidationErrors (some ⟨" ", ""⟩) none = ValidationResult.success ∧
     validateSyncRun (InvokeOutcome.exited false "junk" ⟨" ", ""⟩) =
       ValidationResult.success) :=
  ⟨by decide,
   C8_blank_text_is_success (some ⟨" ", ""⟩) none "junk" ⟨" ", ""⟩ (by decide) (by decide)⟩

/-- C10 (confirmed): on a zero-exit invocation `validateSync` returns the
success marker unconditionally, ignoring whatever the subprocess wrote to
stderr, while `validate` parses the captured stderr and can return a
non-empty error list for the very same outcome. -/
theorem C10_modes_not_equivalent (s : String) (e e2 : ErrObj) :
    validateSyncRun (InvokeOutcome.exited true s e) = ValidationResult.success ∧
    validateRun (InvokeOutcome.exited true "doc.xml:4: element age: bad" e2) =
      ValidationResult.errors [⟨"doc.xml", 4, "element age: bad"⟩] ∧
    ValidationResult.errors [(⟨"doc.xml", 4, "element age: bad"⟩ : ValidationError)] ≠
      ValidationResult.success :=
  ⟨rfl, rfl, by decide⟩

/-- C4 (counterexample): a spawn failure does NOT reject the promise — the
`exec` callback still runs and the promise resolves with an ordinary
`ValidationResult` (here the empty error list obtained by parsing the spawn
error's message), conflating the invocation error with validation
diagnostics. -/
theorem C4_counterexample :
    validateFullAsync (.ok ()) (InvokeOutcome.spawnFailure ⟨"", "spawn xmllint ENOENT"⟩) =
      Except.ok (ValidationResult.errors []) := rfl

/-- C4 (amended): a filesystem-write failure for a raw-content input is
surfaced as a result-flow error in both modes (rejected promise / thrown
value), distinct from any `ValidationResult`; a subprocess spawn failure,
however, always produces an ordinary `ValidationResult` in both modes. -/
theorem C4_invocation_error_flow (msg : String) (out : InvokeOutcome)
    (e : ErrObj) (r : ValidationResult) :
    validateFullAsync (.error msg) out = Except.error msg ∧
    validateFullSync (.error msg) out = Except.error msg ∧
    (∃ r1, validateFullAsync (.ok ()) (InvokeOutcome.spawnFailure e) = Except.ok r1) ∧
    (∃ r2, validateFullSync (.ok ()) (InvokeOutcome.spawnFailure e) = Except.ok r2) ∧
    (Except.error msg : Except String ValidationResult) ≠ Except.ok r :=
  ⟨rfl, rfl, ⟨_, rfl⟩, ⟨_, rfl⟩, fun h => Except.noConfusion h⟩

/-- C6 (code bug): when both inputs are Buffers and the two `Date.now()`
calls land in the same millisecond `t`, both generated temp paths are the
identical `` `${tmpdir}/${t}` `` and only one temp file is created (the
second write silently overwrites the first), violating per-call
uniqueness. -/
theorem C6_same_millisecond_same_path (tmpDir : String) (t : Nat) (b1 b2 : String) :
    (getTempPathsM (Input.buffer b1) (Input.buffer b2) tmpDir (fun _ => t)
        (fun _ => true) ⟨[], []⟩).1 =
      Except.ok (tmpDir ++ "/" ++ Nat.repr t, tmpDir ++ "/" ++ Nat.repr t) ∧
    (getTempPathsM (Input.buffer b1) (Input.buffer b2) tmpDir (fun _ => t)
        (fun _ => true) ⟨[], []⟩).2.created = [tmpDir ++ "/" ++ Nat.repr t] := by
  constructor <;> simp [getTempPathsM, writeTempFileM]

/-- C5 (counterexample): with two Buffer inputs, when the first temp write
succeeds and the second fails, `validateSync` throws the write error to the
caller while the first temp file is still on disk — a temp file created by
the call survives the call, and only one of the two expected temp files was
ever created. -/
theorem C5_counterexample :
    validateSyncM (Input.buffer "x") (Input.buffer "y") "/tmp" (fun i => i)
        (fun i => i == 0) true ⟨[], []⟩ =
      (Except.error "EWRITE", ⟨["/tmp/0"], ["/tmp/0"]⟩) ∧
    (["/tmp/0"] : List String) ≠ [] :=
  ⟨rfl, by decide⟩

/-- C1 (counterexample): the line `":12: hello"` parses to a record with an
empty file but a non-empty message; the claim says such a record is
retained, but the code's filter (`file && message`) discards it, returning
the empty list. -/
theorem C1_counterexample :
    parseLine ":12: hello".data = ⟨"", 12, "hello"⟩ ∧
    (⟨"", 12, "hello"⟩ : ValidationError).message ≠ "" ∧
    parseValidationErrors none (some ":12: hello") = ValidationResult.errors [] := by
  decide

/-- C3 (counterexample): on a line with two `:<digits>: ` markers the
greedy leading group splits at the LAST marker, not the first: the claim
predicts `{file := "a", line := 1, message := "b:2: c"}`, the code produces
`{file := "a:1: b", line := 2, message := "c"}`. -/
theorem C3_counterexample :
    parseValidationErrors none (some "a:1: b:2: c") =
      ValidationResult.errors [⟨"a:1: b", 2, "c"⟩] ∧
    (⟨"a:1: b", 2, "c"⟩ : ValidationError) ≠ ⟨"a", 1, "b:2: c"⟩ := by
  decide

/-- C7 (counterexample): paths are interpolated into the command string
verbatim, with no quoting or escaping: a path containing a space fragments
the command into six words instead of the five the claimed quoting would
preserve, and the command contains no quote character. -/
theorem C7_counterexample :
    buildCommand "/tmp/my schema.xsd" "/tmp/doc.xml" =
      "xmllint --noout --schema /tmp/my schema.xsd /tmp/doc.xml" ∧
    shellWords (buildCommand "/tmp/my schema.xsd" "/tmp/doc.xml") =
      ["xmllint", "--noout", "--schema", "/tmp/my", "schema.xsd", "/tmp/doc.xml"] ∧
    ((buildCommand "/tmp/my schema.xsd" "/tmp/doc.xml").data.all
      (fun c => c != '"')) = true := by
  decide

/-- C1 (amended): the filtering step retains exactly the parsed records
with BOTH a non-empty file and a non-empty message: every record in the
returned error list has non-empty file and message, and every parsed line
whose record has non-empty file and non-empty message appears in the
returned list. -/
theorem C1_retained_iff_file_and_message (error : Option ErrObj)
    (stderr : Option String) (l : List ValidationError)
    (h : parseValidationErrors error stderr = ValidationResult.errors l) :
    (∀ e ∈ l, e.file ≠ "" ∧ e.message ≠ "") ∧
    (∀ line ∈ splitChar '\n' (jsTrimList (selectText error stderr).data),
      (parseLine line).file ≠ "" → (parseLine line).message ≠ "" →
        parseLine line ∈ l) := by
  simp only [parseValidationErrors] at h
  split at h
  · cases h
    constructor
    · intro e he
      have hp := (List.mem_filter.mp he).2
      simpa [bne_iff_ne] using hp
    · intro line hline hf hm
      refine List.mem_filter.mpr ⟨List.mem_map_of_mem parseLine hline, ?_⟩
      simpa [bne_iff_ne] using ⟨hf, hm⟩
  · cases h

theorem C1_retained_iff_file_and_message_witness :
    (parseValidationErrors none (some "a:1: b\nnoise") =
      ValidationResult.errors [⟨"a", 1, "b"⟩]) ∧
    ((∀ e ∈ [(⟨"a", 1, "b"⟩ : ValidationError)], e.file ≠ "" ∧ e.message ≠ "") ∧
     (∀ line ∈ splitChar '\n' (jsTrimList (selectText none (some "a:1: b\nnoise")).data),
       (parseLine line).file ≠ "" → (parseLine line).message ≠ "" →
         parseLine line ∈ [(⟨"a", 1, "b"⟩ : ValidationError)])) :=
  ⟨by decide,
   C1_retained_iff_file_and_message none (some "a:1: b\nnoise") [⟨"a", 1, "b"⟩] (by decide)⟩

/-- C9 (confirmed): whenever the selected diagnostic text does not trim to
nothing, the parser returns an error list (never the success marker), and
the returned list is an in-order sublist of the records parsed from the
lines — so when no line yields a usable record the caller receives the
empty list, a value distinct from the success marker. -/
theorem C9_unusable_lines_empty_list (error : Option ErrObj) (stderr : Option String)
    (h : jsTrimList (selectText error stderr).data ≠ []) :
    ∃ l, parseValidationErrors error stderr = ValidationResult.errors l ∧
      parseValidationErrors error stderr ≠ ValidationResult.success ∧
      l.Sublist ((splitChar '\n' (jsTrimList (selectText error stderr).data)).map parseLine) := by
  have e1 : parseValidationErrors error stderr =
      ValidationResult.errors
        (((splitChar '\n' (jsTrimList (selectText error stderr).data)).map parseLine).filter
          (fun e => e.file != "" && e.message != "")) := by
    simp only [parseValidationErrors]
    rw [if_pos h]
  refine ⟨_, e1, ?_, ?_⟩
  · rw [e1]
    exact fun hx => ValidationResult.noConfusion hx
  · exact List.filter_sublist _

theorem C9_unusable_lines_empty_list_witness :
    (parseValidationErrors none (some "WARNING: something unrelated") =
      ValidationResult.errors []) ∧
    (∃ l, parseValidationErrors none (some "WARNING: something unrelated") =
        ValidationResult.errors l ∧
      parseValidationErrors none (some "WARNING: something unrelated") ≠
        ValidationResult.success ∧
      l.Sublist ((splitChar '\n'
        (jsTrimList (selectText none (some "WARNING: something unrelated")).data)).map
          parseLine)) :=
  ⟨by decide, C9_unusable_lines_empty_list none (some "WARNING: something unrelated") (by decide)⟩

/-- C3 (amended): a line decomposing as `a ++ ":" ++ d ++ ": " ++ b`, where
`d` is a nonempty digit run and `b` contains no further `:<digits>: `
marker, is split at that LAST marker: the file is the whole prefix `a`
(which may itself contain earlier markers), the line number is `d`'s value,
and the message is the remainder `b` — the greedy leading group takes the
longest prefix, not the shortest. -/
theorem C3_splits_at_last_marker (a d b : List Char)
    (ha : a.all isDotChar = true) (hd1 : d ≠ []) (hd2 : d.all isDigitChar = true)
    (hb1 : b.all isDotChar = true) (hb2 : hasMarker b = false) :
    parseLine (a ++ ':' :: (d ++ ':' :: ' ' :: b)) =
      { file := String.mk a, line := digitsToNat d, message := String.mk b } := by
  have hg : greedySplit (a ++ ':' :: (d ++ ':' :: ' ' :: b)) = some (a, d, b) := by
    have hp := greedySplit_prepend a (':' :: (d ++ ':' :: ' ' :: b)) [] d b ha
      (greedySplit_marker d b hd1 hd2 hb2)
    simpa using hp
  unfold parseLine
  rw [matchJS_of_greedySplit _ _ hg]
  simp [takeWhile_all isDotChar b hb1]

theorem C3_splits_at_last_marker_witness :
    ("x:1: y".data.all isDotChar = true) ∧
    parseLine ("x:1: y".data ++ ':' :: ("23".data ++ ':' :: ' ' :: "tail".data)) =
      { file := String.mk "x:1: y".data, line := digitsToNat "23".data,
        message := String.mk "tail".data } :=
  ⟨by decide,
   C3_splits_at_last_marker "x:1: y".data "23".data "tail".data
     (by decide) (by decide) (by decide) (by decide) (by decide)⟩

/-- C7 (amended): the command is `xmllint --noout --schema <xsd> <xml>`
with the two paths interpolated verbatim and never quoted or escaped; as a
consequence the command word-splits into exactly those five words only when
the paths themselves contain no spaces. -/
theorem C7_command_words (p q : String)
    (hp1 : p.data ≠ []) (hp2 : ∀ c ∈ p.data, c ≠ ' ')
    (hq1 : q.data ≠ []) (hq2 : ∀ c ∈ q.data, c ≠ ' ') :
    shellWords (buildCommand p q) = ["xmllint", "--noout", "--schema", p, q] := by
  have hdata : (buildCommand p q).data =
      "xmllint".data ++ ' ' :: ("--noout".data ++ ' ' ::
        ("--schema".data ++ ' ' :: (p.data ++ ' ' :: q.data))) := by
    have hlit : ("xmllint --noout --schema " : String).data =
        "xmllint".data ++ ' ' :: ("--noout".data ++ ' ' ::
          ("--schema".data ++ ' ' :: [])) := by decide
    simp only [buildCommand, string_data_append, hlit]
    simp [List.append_assoc]
  unfold shellWords
  rw [hdata,
    splitChar_append_sep ' ' "xmllint".data _ (by decide),
    splitChar_append_sep ' ' "--noout".data _ (by decide),
    splitChar_append_sep ' ' "--schema".data _ (by decide),
    splitChar_append_sep ' ' p.data _ hp2,
    splitChar_sepfree ' ' q.data hq2]
  have e1 : ("xmllint".data : List Char) ≠ [] := by decide
  have e2 : ("--noout".data : List Char) ≠ [] := by decide
  have e3 : ("--schema".data : List Char) ≠ [] := by decide
  simp [List.filter_cons, e1, e2, e3, hp1, hq1, string_mk_data]

theorem C7_command_words_witness :
    (("a.xsd" : String).data ≠ [] ∧ ("b.xml" : String).data ≠ []) ∧
    shellWords (buildCommand "a.xsd" "b.xml") =
      ["xmllint", "--noout", "--schema", "a.xsd", "b.xml"] :=
  ⟨⟨by decide, by decide⟩,
   C7_command_words "a.xsd" "b.xml" (by decide) (by decide) (by decide) (by decide)⟩

/-- C5 (amended): when every raw-content write succeeds and the two
generated temp paths are distinct, the number of temp files created equals
the number of Buffer inputs (0, 1, or 2) and every created temp file is
removed before the call returns, on every invocation outcome, in both the
blocking and the non-blocking mode; the original claim fails only when the
second of two temp writes fails mid-materialization, which propagates the
write error while the first temp file is still on disk. -/
theorem C5_temp_files_cleaned (xsd xml : Input) (tmpDir : String)
    (clock : Nat → Nat) (invokeOk : Bool)
    (hdist : tmpDir ++ "/" ++ Nat.repr (clock 0) ≠ tmpDir ++ "/" ++ Nat.repr (clock 1)) :
    (∃ b, (validateSyncM xsd xml tmpDir clock (fun _ => true) invokeOk ⟨[], []⟩).1 =
      Except.ok b) ∧
    (validateSyncM xsd xml tmpDir clock (fun _ => true) invokeOk ⟨[], []⟩).2.fs = [] ∧
    (validateSyncM xsd xml tmpDir clock (fun _ => true) invokeOk ⟨[], []⟩).2.created.length =
      bufCount xsd xml ∧
    (validateM xsd xml tmpDir clock (fun _ => true) ⟨[], []⟩).1 = AsyncResult.resolved ∧
    (validateM xsd xml tmpDir clock (fun _ => true) ⟨[], []⟩).2.fs = [] ∧
    (validateM xsd xml tmpDir clock (fun _ => true) ⟨[], []⟩).2.created.length =
      bufCount xsd xml := by
  have hdist' := Ne.symm hdist
  cases xsd <;> cases xml <;> cases invokeOk <;>
    simp [validateSyncM, validateM, getTempPathsM, writeTempFileM,
      cleanupTempFilesM, unlinkSyncM, Input.isBuf, bufCount, hdist, hdist',
      List.erase_cons_head]

theorem C5_temp_files_cleaned_witness :
    ("/tmp" ++ "/" ++ Nat.repr 0 ≠ "/tmp" ++ "/" ++ Nat.repr 1) ∧
    ((∃ b, (validateSyncM (Input.buffer "sx") (Input.buffer "sy") "/tmp" (fun i => i)
        (fun _ => true) true ⟨[], []⟩).1 = Except.ok b) ∧
     (validateSyncM (Input.buffer "sx") (Input.buffer "sy") "/tmp" (fun i => i)
        (fun _ => true) true ⟨[], []⟩).2.fs = [] ∧
     (validateSyncM (Input.buffer "sx") (Input.buffer "sy") "/tmp" (fun i => i)
        (fun _ => true) true ⟨[], []⟩).2.created.length =
       bufCount (Input.buffer "sx") (Input.buffer "sy") ∧
     (validateM (Input.buffer "sx") (Input.buffer "sy") "/tmp" (fun i => i)
        (fun _ => true) ⟨[], []⟩).1 = AsyncResult.resolved ∧
     (validateM (Input.buffer "sx") (Input.buffer "sy") "/tmp" (fun i => i)
        (fun _ => true) ⟨[], []⟩).2.fs = [] ∧
     (validateM (Input.buffer "sx") (Input.buffer "sy") "/tmp" (fun i => i)
        (fun _ => true) ⟨[], []⟩).2.created.length =
       bufCount (Input.buffer "sx") (Input.buffer "sy")) :=
  ⟨by decide,
   C5_temp_files_cleaned (Input.buffer "sx") (Input.buffer "sy") "/tmp" (fun i => i)
     true (by decide)⟩

end XMLValidator
